import Mathlib

/-!
Verification of the tidy-tuesday-projects repository: a shallow embedding in
Lean 4 of the data transformations performed by the Python analysis scripts
(frog_mapper.py, frog_species_map.py, historic_station.py,
selected_british_literary_prizes.py, vesuvius.py, get_sydney.py), together
with theorems settling the behavioural claims about them.

Modelling conventions:
- pandas tables are lists of structure values (one structure per row);
- a column that can hold NaN is an `Option` field (`none` = NaN);
- numeric measurements are rationals (`Rat`), a faithful model of the
  decimal values the scripts compare and aggregate;
- `pd.merge(..., how=left)`, `dropna`, `groupby(...).agg(...)` are
  implemented as list recursions mirroring pandas row semantics (pandas
  sorts group keys; we keep first-occurrence order, which no claim is
  sensitive to);
- the scripts' I/O behaviour is embedded as explicit data: load wrappers
  take the fetch outcome as an `Except` value and return the parsed table
  together with the printed lines, and `main` is a function from that
  outcome to the list of files it writes.
-/

/-! ## frog_species_map.py / frog_mapper.py : data model -/

/-- One row of frogID_data.csv as used by the scripts.  `eventMonth` is the
month extracted from `eventDate` after `pd.to_datetime(..., errors=coerce)`
(`none` when the date is missing or unparseable). -/
structure OccRow where
  scientificName : String
  decimalLatitude : Option Rat
  decimalLongitude : Option Rat
  eventMonth : Option Int
  stateProvince : Option String
deriving DecidableEq, Repr

/-- One row of frog_names.csv (the species-name lookup table). -/
structure NameRow where
  scientificName : String
  commonName : Option String
deriving DecidableEq, Repr

/-- A row of the merged table: the occurrence fields plus the matched
name-table row (`none` when the left merge found no match). -/
structure MergedRow where
  occ : OccRow
  name : Option NameRow
deriving DecidableEq, Repr

/-- `pd.merge(frog_id_data, frog_names, on=scientificName, how=left)`:
each occurrence row is paired with every name row sharing its
`scientificName`; an unmatched occurrence row is kept once with NaN name
fields. -/
def mergeLeft : List OccRow → List NameRow → List MergedRow
  | [], _ => []
  | o :: t, names =>
      (let ms := names.filter (fun n => n.scientificName = o.scientificName)
       if ms.isEmpty then [⟨o, none⟩] else ms.map (fun n => ⟨o, some n⟩))
      ++ mergeLeft t names

/-- The predicate of `dropna(subset=[decimalLatitude, decimalLongitude])`:
both coordinates present. -/
def hasCoords (m : MergedRow) : Bool :=
  m.occ.decimalLatitude.isSome && m.occ.decimalLongitude.isSome

/-- The merge-then-dropna step shared by both frog scripts
(frog_mapper.py lines 18-23, frog_species_map.py lines 22-25). -/
def load_merge_dropna (occ : List OccRow) (names : List NameRow) : List MergedRow :=
  (mergeLeft occ names).filter hasCoords

/-! ## frog_species_map.py : get_season -/

/-- `get_season` from frog_species_map.py.  The argument is the month
column value (`none` models NaN, produced for rows whose event date failed
to parse). -/
def get_season (month : Option Int) : String :=
  match month with
  | none => "Unknown"
  | some m =>
      if m = 12 ∨ m = 1 ∨ m = 2 then "Summer"
      else if m = 3 ∨ m = 4 ∨ m = 5 then "Autumn"
      else if m = 6 ∨ m = 7 ∨ m = 8 then "Winter"
      else "Spring"

/-- Claim C1: get_season is total on months 1..12, mapping 12, 1, 2 to
Summer, 3, 4, 5 to Autumn, 6, 7, 8 to Winter, 9, 10, 11 to Spring, and the
missing/NaN month to the fixed value Unknown. -/
theorem claim_C1 :
    get_season (some 12) = "Summer" ∧ get_season (some 1) = "Summer" ∧
    get_season (some 2) = "Summer" ∧
    get_season (some 3) = "Autumn" ∧ get_season (some 4) = "Autumn" ∧
    get_season (some 5) = "Autumn" ∧
    get_season (some 6) = "Winter" ∧ get_season (some 7) = "Winter" ∧
    get_season (some 8) = "Winter" ∧
    get_season (some 9) = "Spring" ∧ get_season (some 10) = "Spring" ∧
    get_season (some 11) = "Spring" ∧
    get_season none = "Unknown" := by
  decide

/-! ## Claim C2 : merge/dropna row count -/

/-- A key absent from the name table matches no rows. -/
lemma filter_key_eq_nil (t : List NameRow) (s : String)
    (h : s ∉ t.map NameRow.scientificName) :
    t.filter (fun n => n.scientificName = s) = [] := by
  induction t with
  | nil => rfl
  | cons a t ih =>
    simp only [List.map_cons, List.mem_cons, not_or] at h
    by_cases hc : a.scientificName = s
    · exact absurd hc.symm h.1
    · simpa [hc] using ih h.2

/-- When the name table has pairwise-distinct scientificName keys, any key
matches at most one of its rows. -/
lemma filter_key_length_le_one (names : List NameRow)
    (h : (names.map NameRow.scientificName).Nodup) (s : String) :
    (names.filter (fun n => n.scientificName = s)).length ≤ 1 := by
  induction names with
  | nil => simp
  | cons a t ih =>
    simp only [List.map_cons, List.nodup_cons] at h
    by_cases hc : a.scientificName = s
    · have ht : t.filter (fun n => n.scientificName = s) = [] := by
        apply filter_key_eq_nil
        rw [← hc]
        exact h.1
      simp [hc, ht]
    · simpa [hc] using ih h.2

/-- With a duplicate-free lookup table, the left merge produces at most one
output row per occurrence row. -/
lemma mergeLeft_length_le (occ : List OccRow) (names : List NameRow)
    (h : (names.map NameRow.scientificName).Nodup) :
    (mergeLeft occ names).length ≤ occ.length := by
  induction occ with
  | nil => simp [mergeLeft]
  | cons o t ih =>
    have hseg :
        (if (names.filter (fun n => n.scientificName = o.scientificName)).isEmpty
         then ([⟨o, none⟩] : List MergedRow)
         else (names.filter (fun n => n.scientificName = o.scientificName)).map
                (fun n => ⟨o, some n⟩)).length ≤ 1 := by
      by_cases he :
          (names.filter (fun n => n.scientificName = o.scientificName)).isEmpty
      · simp [he]
      · simpa [he] using filter_key_length_le_one names h o.scientificName
    simp only [mergeLeft, List.length_append, List.length_cons]
    omega

/-- Occurrence table for the C2 counterexample: one row with complete
coordinates. -/
def occCE : List OccRow := [⟨"Litoria caerulea", some 0, some 0, none, none⟩]

/-- Name table for the C2 counterexample: the same scientificName twice,
as nothing in the scripts forbids duplicate keys in frog_names.csv. -/
def namesCE : List NameRow :=
  [⟨"Litoria caerulea", some "Green Tree Frog"⟩,
   ⟨"Litoria caerulea", some "White's Tree Frog"⟩]

/-- Claim C2 as stated is false: with a duplicate key in the species-name
lookup table the left merge duplicates the occurrence row, and both copies
survive the coordinate dropna, so the result has more rows than the
occurrence input. -/
theorem claim_C2_counterexample :
    ¬ (load_merge_dropna occCE namesCE).length ≤ occCE.length := by
  decide

/-- Claim C2 (amended): the merge-then-dropna result is deterministic in
the two input tables, and whenever the species-name lookup table has
pairwise-distinct scientificName keys its row count is at most the row
count of the occurrence input table. -/
theorem claim_C2 :
    (∀ occ names occ2 names2, occ = occ2 → names = names2 →
      load_merge_dropna occ names = load_merge_dropna occ2 names2) ∧
    (∀ occ names, (names.map NameRow.scientificName).Nodup →
      (load_merge_dropna occ names).length ≤ occ.length) := by
  constructor
  · intro occ names occ2 names2 h1 h2
    rw [h1, h2]
  · intro occ names h
    calc (load_merge_dropna occ names).length
        ≤ (mergeLeft occ names).length := List.length_filter_le _ _
      _ ≤ occ.length := mergeLeft_length_le occ names h

/-- Occurrence table used by the witness instances. -/
def occW : List OccRow := [⟨"Litoria caerulea", some 0, some 0, some 1, none⟩]

/-- Duplicate-free name table used by the witness instances. -/
def namesW : List NameRow := [⟨"Litoria caerulea", some "Green Tree Frog"⟩]

theorem claim_C2_witness :
    load_merge_dropna occW namesW = load_merge_dropna occW namesW ∧
    (load_merge_dropna occW namesW).length ≤ occW.length :=
  ⟨claim_C2.1 occW namesW occW namesW rfl rfl,
   claim_C2.2 occW namesW (by decide)⟩

/-! ## Claim C6 : dropped-rows invariant -/

/-- A row of the processed frog_species_map.py dataset: the merged row plus
the derived season column (frog_species_map.py lines 28-30, where the month
column feeds `get_season`). -/
structure SeasonRow where
  row : MergedRow
  season : String
deriving DecidableEq

/-- The dataset returned by frog_species_map.py's load_and_process_data:
merge, coordinate dropna, then the derived month/season columns (which add
no rows and change no coordinates). -/
def fs_process (occ : List OccRow) (names : List NameRow) : List SeasonRow :=
  (load_merge_dropna occ names).map (fun m => ⟨m, get_season m.occ.eventMonth⟩)

/-- Claim C6: every row of the dataset returned by load_and_process_data
has non-missing decimalLatitude and decimalLongitude — both for the
frog_mapper.py dataset, which main hands unchanged to create_frog_map and
generate_species_summary, and for the frog_species_map.py dataset with the
season column, which main hands unchanged to the analysis and map
builders. -/
theorem claim_C6 :
    ∀ occ names,
      (∀ m ∈ load_merge_dropna occ names,
        m.occ.decimalLatitude.isSome = true ∧
        m.occ.decimalLongitude.isSome = true) ∧
      (∀ r ∈ fs_process occ names,
        r.row.occ.decimalLatitude.isSome = true ∧
        r.row.occ.decimalLongitude.isSome = true) := by
  intro occ names
  have base : ∀ m ∈ load_merge_dropna occ names,
      m.occ.decimalLatitude.isSome = true ∧
      m.occ.decimalLongitude.isSome = true := by
    intro m hm
    have hf := (List.mem_filter.mp hm).2
    simpa [hasCoords, Bool.and_eq_true] using hf
  refine ⟨base, ?_⟩
  intro r hr
  obtain ⟨m, hm, rfl⟩ := List.mem_map.mp hr
  exact base m hm

theorem claim_C6_witness :
    ((⟨⟨"Litoria caerulea", some 0, some 0, some 1, none⟩,
       some ⟨"Litoria caerulea", some "Green Tree Frog"⟩⟩ :
        MergedRow).occ.decimalLatitude.isSome = true ∧
     (⟨⟨"Litoria caerulea", some 0, some 0, some 1, none⟩,
       some ⟨"Litoria caerulea", some "Green Tree Frog"⟩⟩ :
        MergedRow).occ.decimalLongitude.isSome = true) :=
  (claim_C6 occW namesW).1
    ⟨⟨"Litoria caerulea", some 0, some 0, some 1, none⟩,
      some ⟨"Litoria caerulea", some "Green Tree Frog"⟩⟩ (by decide)

/-! ## pandas groupby/agg machinery -/

section GroupBy

variable {α : Type} {κ : Type} {β : Type} [DecidableEq κ]

/-- Append one row to its group inside an association list of groups,
creating the group when the key is new. -/
def insertGroup (k : κ) (a : α) : List (κ × List α) → List (κ × List α)
  | [] => [(k, [a])]
  | (k2, g) :: t => if k = k2 then (k2, g ++ [a]) :: t else (k2, g) :: insertGroup k a t

/-- Partition rows into keyed groups by a single left-to-right pass, the
row order inside each group preserved (the semantics of pandas `groupby`
up to key order, which the claims do not touch). -/
def groupPairs (key : α → κ) (rows : List α) : List (κ × List α) :=
  rows.foldl (fun acc a => insertGroup (key a) a acc) []

/-- `groupby(key).agg(agg)`: the aggregate of every group. -/
def groupAgg (key : α → κ) (agg : List α → β) (rows : List α) : List (κ × β) :=
  (groupPairs key rows).map (fun p => (p.1, agg p.2))

/-- Look a key up in a list of keyed groups (empty group when absent). -/
def findGroup (k : κ) : List (κ × List α) → List α
  | [] => []
  | (k2, g) :: t => if k = k2 then g else findGroup k t

lemma keys_insertGroup (k : κ) (a : α) (acc : List (κ × List α)) :
    (insertGroup k a acc).map Prod.fst =
      if k ∈ acc.map Prod.fst then acc.map Prod.fst
      else acc.map Prod.fst ++ [k] := by
  induction acc with
  | nil => simp [insertGroup]
  | cons p t ih =>
    obtain ⟨k2, g⟩ := p
    by_cases h : k = k2
    · simp [insertGroup, h]
    · by_cases hm : k ∈ t.map Prod.fst <;>
        simp [insertGroup, h, ih, hm, List.mem_cons]

lemma nodup_keys_insertGroup (k : κ) (a : α) (acc : List (κ × List α))
    (h : (acc.map Prod.fst).Nodup) :
    ((insertGroup k a acc).map Prod.fst).Nodup := by
  rw [keys_insertGroup]
  split
  · exact h
  · rename_i hm
    simp [List.nodup_append, h, hm]

lemma findGroup_insertGroup (k k2 : κ) (a : α) (acc : List (κ × List α)) :
    findGroup k (insertGroup k2 a acc) =
      if k = k2 then findGroup k acc ++ [a] else findGroup k acc := by
  induction acc with
  | nil => by_cases h : k = k2 <;> simp [insertGroup, findGroup, h]
  | cons p t ih =>
    obtain ⟨k3, g⟩ := p
    by_cases h1 : k2 = k3
    · subst h1
      by_cases h2 : k = k2 <;> simp [insertGroup, findGroup, h2]
    · by_cases h2 : k = k3
      · subst h2
        have h3 : ¬ k = k2 := fun hh => h1 hh.symm
        simp [insertGroup, h1, findGroup, h3]
      · simp [insertGroup, h1, findGroup, h2, ih]

lemma findGroup_foldl (key : α → κ) (rows : List α) (acc : List (κ × List α))
    (k : κ) :
    findGroup k (rows.foldl (fun acc a => insertGroup (key a) a acc) acc) =
      findGroup k acc ++ rows.filter (fun a => key a = k) := by
  induction rows generalizing acc with
  | nil => simp
  | cons a t ih =>
    rw [List.foldl_cons, ih, findGroup_insertGroup]
    by_cases h : key a = k
    · rw [if_pos h.symm]
      simp [List.filter_cons, h, List.append_assoc]
    · rw [if_neg (fun hh => h hh.symm)]
      simp [List.filter_cons, h]

lemma findGroup_groupPairs (key : α → κ) (rows : List α) (k : κ) :
    findGroup k (groupPairs key rows) = rows.filter (fun a => key a = k) := by
  simpa [groupPairs, findGroup] using findGroup_foldl key rows [] k

lemma nodup_keys_foldl (key : α → κ) (rows : List α) (acc : List (κ × List α))
    (h : (acc.map Prod.fst).Nodup) :
    (((rows.foldl (fun acc a => insertGroup (key a) a acc) acc)).map
        Prod.fst).Nodup := by
  induction rows generalizing acc with
  | nil => simpa using h
  | cons a t ih =>
    rw [List.foldl_cons]
    exact ih _ (nodup_keys_insertGroup _ _ _ h)

lemma nodup_keys_groupPairs (key : α → κ) (rows : List α) :
    ((groupPairs key rows).map Prod.fst).Nodup :=
  nodup_keys_foldl key rows [] (by simp)

lemma findGroup_eq_of_mem {k : κ} {g : List α} {l : List (κ × List α)}
    (h : (k, g) ∈ l) (hn : (l.map Prod.fst).Nodup) : findGroup k l = g := by
  induction l with
  | nil => cases h
  | cons p t ih =>
    obtain ⟨k2, g2⟩ := p
    simp only [List.map_cons, List.nodup_cons] at hn
    rcases List.mem_cons.mp h with h1 | h1
    · obtain ⟨rfl, rfl⟩ := Prod.mk.injEq .. |>.mp h1
      simp [findGroup]
    · have hk : ¬ k = k2 := by
        intro hkk
        subst hkk
        exact hn.1 (List.mem_map_of_mem Prod.fst h1)
    
      simp [findGroup, hk, ih h1 hn.2]

/-- Membership in a grouped table determines the group: it is exactly the
filter of the input rows at that key. -/
lemma mem_groupPairs_eq_filter {key : α → κ} {rows : List α} {k : κ}
    {g : List α} (h : (k, g) ∈ groupPairs key rows) :
    g = rows.filter (fun a => key a = k) := by
  rw [← findGroup_groupPairs key rows k]
  exact (findGroup_eq_of_mem h (nodup_keys_groupPairs key rows)).symm

/-- Membership in a grouped-and-aggregated table determines the value: it
is the aggregate of the filter of the input rows at that key. -/
lemma mem_groupAgg {key : α → κ} {agg : List α → β} {rows : List α} {k : κ}
    {b : β} (h : (k, b) ∈ groupAgg key agg rows) :
    b = agg (rows.filter (fun a => key a = k)) := by
  obtain ⟨⟨k2, g⟩, hp, heq⟩ := List.mem_map.mp h
  obtain ⟨rfl, rfl⟩ := Prod.mk.injEq .. |>.mp heq
  rw [mem_groupPairs_eq_filter hp]

end GroupBy

/-! ## historic_station.py : data model and aggregation -/

/-- pandas column mean with NaN skipped (`agg(mean)`): `none` when the
column is all-NaN. -/
def pmean (l : List (Option Rat)) : Option Rat :=
  let v := l.filterMap id
  if v.isEmpty then none else some (v.sum / v.length)

/-- pandas column sum with NaN skipped (`agg(sum)`, default min_count=0,
so an all-NaN column sums to 0). -/
def psum (l : List (Option Rat)) : Rat :=
  (l.filterMap id).sum

/-- One row of historic_station_met.csv: a station-month observation. -/
structure WeatherRow where
  station : String
  year : Int
  month : Int
  tmax : Option Rat
  tmin : Option Rat
  rain : Option Rat
  sun : Option Rat
  af : Option Rat
deriving DecidableEq

/-- The aggregate record of one (station, year) group produced by
`annual_data` (tmax/tmin averaged, rain/sun/af summed). -/
structure AnnualAgg where
  tmax : Option Rat
  tmin : Option Rat
  rain : Rat
  sun : Rat
  af : Rat
deriving DecidableEq

/-- The aggregation dictionary of historic_station.py lines 20-26. -/
def aggMonthly (g : List WeatherRow) : AnnualAgg :=
  ⟨pmean (g.map (·.tmax)), pmean (g.map (·.tmin)),
   psum (g.map (·.rain)), psum (g.map (·.sun)), psum (g.map (·.af))⟩

/-- `annual_data`: the monthly table grouped by (station, year) and
aggregated (historic_station.py lines 20-26). -/
def annual_data (rows : List WeatherRow) : List ((String × Int) × AnnualAgg) :=
  groupAgg (fun r => (r.station, r.year)) aggMonthly rows

/-- One row of the dashboard's `data` table: a station-year aggregate
merged with the station metadata and the derived region column. -/
structure DataRow where
  station : String
  year : Int
  station_name : String
  lat : Rat
  lng : Rat
  region : String
  tmax : Option Rat
  tmin : Option Rat
  rain : Option Rat
  sun : Option Rat
  af : Option Rat
deriving DecidableEq

/-- The rainfall series of the regional_trends output (historic_station.py
lines 410-415): restrict `data` to the selected year range, group by
(region, year), and take the group mean of the metric column. -/
def regional_trends_rain (rows : List DataRow) (y0 y1 : Int) :
    List ((String × Int) × Option Rat) :=
  groupAgg (fun r => (r.region, r.year)) (fun g => pmean (g.map (·.rain)))
    (rows.filter (fun r => y0 ≤ r.year ∧ r.year ≤ y1))

/-- Two station-year rows in the same region and year, rainfall 1 and 3,
for the C3 counterexample. -/
def dataCE : List DataRow :=
  [⟨"s1", 2000, "Station One", 58, -3, "Scotland (North)",
    none, none, some 1, none, none⟩,
   ⟨"s2", 2000, "Station Two", 58, -4, "Scotland (North)",
    none, none, some 3, none, none⟩]

/-- Claim C3 as stated is false: regional_trends reports the group MEAN of
the station-year rainfall rows, not their sum.  With two rows of rainfall
1 and 3 in one region-year it reports 2 while the sum is 4. -/
theorem claim_C3_counterexample :
    (("Scotland (North)", (2000 : Int)), some (2 : Rat)) ∈
        regional_trends_rain dataCE 2000 2000 ∧
    psum ((dataCE.filter (fun r =>
        (r.region, r.year) = ("Scotland (North)", (2000 : Int)))).map
          (·.rain)) = 4 ∧
    some (2 : Rat) ≠ some (4 : Rat) := by
  refine ⟨?_, ?_, ?_⟩
  · norm_num [regional_trends_rain, groupAgg, groupPairs, List.foldl,
      insertGroup, dataCE, pmean, List.filter, List.filterMap]
    intro h
    simp at h
  · norm_num [psum, dataCE, List.filter, List.filterMap]
  · norm_num

/-- Claim C3 (amended): the annual aggregate assigns every (station, year)
group a rain value equal to the sum of that group's monthly rain rows and
tmax/tmin values equal to their means; and the rainfall reported per
region and year equals the MEAN (not the sum) of the underlying
station-year rows within that region and year drawn from the selected
year range. -/
theorem claim_C3 :
    (∀ rows (s : String) (y : Int) v, ((s, y), v) ∈ annual_data rows →
      v.rain = psum ((rows.filter (fun r =>
          (r.station, r.year) = (s, y))).map (·.rain)) ∧
      v.tmax = pmean ((rows.filter (fun r =>
          (r.station, r.year) = (s, y))).map (·.tmax)) ∧
      v.tmin = pmean ((rows.filter (fun r =>
          (r.station, r.year) = (s, y))).map (·.tmin))) ∧
    (∀ rows (y0 y1 : Int) (reg : String) (yr : Int) v,
      ((reg, yr), v) ∈ regional_trends_rain rows y0 y1 →
      v = pmean (((rows.filter (fun r => y0 ≤ r.year ∧ r.year ≤ y1)).filter
          (fun r => (r.region, r.year) = (reg, yr))).map (·.rain))) := by
  constructor
  · intro rows s y v h
    simp only [annual_data] at h
    have hv := mem_groupAgg h
    subst hv
    exact ⟨rfl, rfl, rfl⟩
  · intro rows y0 y1 reg yr v h
    simp only [regional_trends_rain] at h
    exact mem_groupAgg h

/-- One monthly observation used to instantiate the C3 theorem. -/
def weatherW : List WeatherRow :=
  [⟨"s1", 2000, 1, some 10, some 2, some 5, none, none⟩]

theorem claim_C3_witness :
    ((aggMonthly weatherW).rain = psum ((weatherW.filter (fun r =>
        (r.station, r.year) = ("s1", (2000 : Int)))).map (·.rain)) ∧
     (aggMonthly weatherW).tmax = pmean ((weatherW.filter (fun r =>
        (r.station, r.year) = ("s1", (2000 : Int)))).map (·.tmax)) ∧
     (aggMonthly weatherW).tmin = pmean ((weatherW.filter (fun r =>
        (r.station, r.year) = ("s1", (2000 : Int)))).map (·.tmin))) ∧
    some (2 : Rat) = pmean (((dataCE.filter (fun r =>
        (2000 : Int) ≤ r.year ∧ r.year ≤ (2000 : Int))).filter (fun r =>
        (r.region, r.year) = ("Scotland (North)", (2000 : Int)))).map
          (·.rain)) :=
  ⟨claim_C3.1 weatherW "s1" 2000 (aggMonthly weatherW)
     (by norm_num [annual_data, groupAgg, groupPairs, List.foldl,
        insertGroup, weatherW]),
   claim_C3.2 dataCE 2000 2000 "Scotland (North)" 2000 (some 2)
     (by
       norm_num [regional_trends_rain, groupAgg, groupPairs, List.foldl,
         insertGroup, dataCE, pmean, List.filter, List.filterMap]
       intro h
       simp at h)⟩

/-! ## Claim C4 : region and decade bucketing -/

/-- `classify_region` from historic_station.py lines 32-44. -/
def classify_region (lat : Rat) : String :=
  if lat ≥ 57 then "Scotland (North)"
  else if lat ≥ 55 then "Scotland (South)"
  else if lat ≥ 53 then "Northern England"
  else if lat ≥ 51.5 then "Midlands"
  else if lat ≥ 50 then "Southern England"
  else "Southwest England"

/-- The six region labels classify_region can return. -/
def regionLabels : List String :=
  ["Scotland (North)", "Scotland (South)", "Northern England",
   "Midlands", "Southern England", "Southwest England"]

/-- The decade bin `(year // 10) * 10` of historic_station.py line 788
(Python `//` is floor division, hence `Int.fdiv`). -/
def decade (year : Int) : Int := (Int.fdiv year 10) * 10

/-- Claim C4: classify_region is a total function into the six region
labels and is determined solely by the latitude; the decade bin is
determined solely by the year. -/
theorem claim_C4 :
    (∀ lat : Rat, classify_region lat ∈ regionLabels) ∧
    (∀ a b : Rat, a = b → classify_region a = classify_region b) ∧
    (∀ y1 y2 : Int, y1 = y2 → decade y1 = decade y2) := by
  refine ⟨?_, ?_, ?_⟩
  · intro lat
    unfold classify_region regionLabels
    split_ifs <;> simp
  · intro a b h
    rw [h]
  · intro y1 y2 h
    rw [h]

theorem claim_C4_witness :
    classify_region 56 ∈ regionLabels ∧
    classify_region 56 = classify_region 56 ∧
    decade 1987 = decade 1987 :=
  ⟨claim_C4.1 56, claim_C4.2.1 56 56 rfl, claim_C4.2.2 1987 1987 rfl⟩

/-! ## Claim C7 : dashboard noninterference -/

/-- The value of the named metric column of a station-year row
(`data[metric]` for the METRICS keys of historic_station.py). -/
def metricVal (r : DataRow) : String → Option Rat
  | "tmax" => r.tmax
  | "tmin" => r.tmin
  | "rain" => r.rain
  | "sun" => r.sun
  | "af" => r.af
  | _ => none

/-- The full set of dashboard input controls declared by the
historic_station.py UI (one field per `ui.input_*` control). -/
structure Controls where
  map_year : Int
  map_metric : String
  regional_metric : String
  regional_year_range : Int × Int
  historic_metric : String
  top_n_years : Int
  monthly_metric : String
  monthly_stations : List String
  compare_years : Int × Int
  ts_metric : String
  ts_stations : List String
  trend_metric : String
  trend_aggregation : String
  show_trend_line : Bool
deriving DecidableEq

/-- The observable content of the weather_map output panel: either the
fallback message, or a figure determined by the rows plotted, the metric
(its colour scale, units and title) and the year (its title). -/
inductive MapOutput where
  | noData (msg : String)
  | figure (rows : List DataRow) (metric : String) (year : Int)
deriving DecidableEq

/-- `weather_map` from historic_station.py lines 336-375: restrict `data`
to the selected year, drop rows whose selected metric is missing, and
render either the fallback paragraph or the scatter-map figure. -/
def weather_map (data : List DataRow) (c : Controls) : MapOutput :=
  let year_data := (data.filter (fun r => r.year = c.map_year)).filter
    (fun r => (metricVal r c.map_metric).isSome)
  if year_data.length = 0 then
    .noData "No data available for this year and metric"
  else
    .figure year_data c.map_metric c.map_year

/-- Claim C7: the weather_map output over fixed loaded data is a function
of the declared inputs map_year and map_metric alone — two control states
agreeing on those two values yield identical output whatever every other
dashboard control holds. -/
theorem claim_C7 :
    ∀ (data : List DataRow) (c1 c2 : Controls),
      c1.map_year = c2.map_year → c1.map_metric = c2.map_metric →
      weather_map data c1 = weather_map data c2 := by
  intro data c1 c2 h1 h2
  unfold weather_map
  rw [h1, h2]

/-- Control state used by the C7 witness. -/
def controlsA : Controls :=
  ⟨2000, "tmax", "rain", (1900, 2000), "rain", 5, "tmax", [],
   (1900, 2000), "tmax", [], "tmax", "mean", true⟩

/-- Same declared map inputs as controlsA, every other control changed. -/
def controlsB : Controls :=
  ⟨2000, "tmax", "sun", (1950, 1960), "af", 7, "tmin", ["s1"],
   (1950, 1960), "rain", ["s2"], "tmin", "median", false⟩

theorem claim_C7_witness :
    weather_map dataCE controlsA = weather_map dataCE controlsB :=
  claim_C7 dataCE controlsA controlsB rfl rfl

/-! ## Claim C5 : error path of the frog scripts -/

/-- The exception raised while loading either CSV, split as the two
except clauses of the scripts split it. -/
inductive LoadError where
  | fileNotFound (msg : String)
  | other (msg : String)
deriving DecidableEq

/-- frog_mapper.py load_and_process_data: the fetch outcome is consumed,
and the function yields the processed table (or `none` after a caught
exception) together with the lines it prints. -/
def fm_load (fetch : Except LoadError (List OccRow × List NameRow)) :
    Option (List MergedRow) × List String :=
  match fetch with
  | .error (.fileNotFound m) =>
      (none,
       ["Error: Could not find CSV file - " ++ m,
        "Please ensure both 'frogID_data.csv' and 'frog_names.csv' are in the current directory"])
  | .error (.other m) => (none, ["Error loading data: " ++ m])
  | .ok (occ, names) =>
      (some (load_merge_dropna occ names),
       ["Loaded " ++ toString occ.length ++ " occurrence records",
        "Loaded " ++ toString names.length ++ " species names",
        "Merged dataset contains " ++ toString (mergeLeft occ names).length
          ++ " records",
        "After removing records with missing coordinates: "
          ++ toString (load_merge_dropna occ names).length ++ " records"])

/-- The HTML files frog_mapper.py main writes, as a function of the fetch
outcome and of the y/n answer read from standard input: on `None` main
returns before any map is created. -/
def fm_main_files (fetch : Except LoadError (List OccRow × List NameRow))
    (heatAns : String) : List String :=
  match (fm_load fetch).1 with
  | none => []
  | some _ =>
      ["frog_species_map.html"]
      ++ (if heatAns = "y" ∨ heatAns = "Y" then ["frog_species_heatmap.html"]
          else [])

/-- frog_species_map.py load_and_process_data: merge, coordinate dropna and
season derivation on success, `none` plus a printed diagnostic after a
caught exception. -/
def fs_load (fetch : Except LoadError (List OccRow × List NameRow)) :
    Option (List SeasonRow) × List String :=
  match fetch with
  | .error (.fileNotFound m) =>
      (none, ["Error: Could not find CSV file - " ++ m])
  | .error (.other m) => (none, ["Error loading data: " ++ m])
  | .ok (occ, names) =>
      (some (fs_process occ names),
       ["Loaded " ++ toString occ.length ++ " occurrence records",
        "Loaded " ++ toString names.length ++ " species names",
        "Processed dataset contains " ++ toString (fs_process occ names).length
          ++ " records"])

/-- Does the processed dataset have at least one potentially endemic
species (found in exactly one non-missing state with at least 3 records)?
This is the truthiness of the endemic_species dict of analyze_endemism,
which gates saving the endemism map. -/
def endemic_nonempty (d : List SeasonRow) : Bool :=
  ((d.map (fun r => r.row.occ.scientificName)).eraseDups).any (fun sp =>
    decide ((((d.filter (fun r => r.row.occ.scientificName = sp)).filterMap
        (fun r => r.row.occ.stateProvince)).eraseDups).length = 1) &&
    decide (3 ≤ (d.filter (fun r => r.row.occ.scientificName = sp)).length))

/-- Does analyze_calling_seasons return a truthy seasonal_preferences
value: some dated rows exist and some species has at least 5 of them?
This gates saving the seasonal map. -/
def seasonal_nonempty (d : List SeasonRow) : Bool :=
  let sd := d.filter (fun r => r.row.occ.eventMonth.isSome)
  !sd.isEmpty &&
    ((sd.map (fun r => r.row.occ.scientificName)).eraseDups).any (fun sp =>
      decide (5 ≤ (sd.filter (fun r => r.row.occ.scientificName = sp)).length))

/-- The HTML files frog_species_map.py main writes on the success path:
the endemism and seasonal maps conditionally, the range-comparison map
always. -/
def fs_saved_files (d : List SeasonRow) : List String :=
  (if endemic_nonempty d then ["frog_endemism_map.html"] else [])
  ++ (if seasonal_nonempty d then ["frog_seasonal_map.html"] else [])
  ++ ["frog_range_comparison_map.html"]

/-- The HTML files frog_species_map.py main writes, as a function of the
fetch outcome: on `None` main returns before any map is created. -/
def fs_main_files (fetch : Except LoadError (List OccRow × List NameRow)) :
    List String :=
  match (fs_load fetch).1 with
  | none => []
  | some d => fs_saved_files d

/-- Claim C5: when loading raises, both scripts' load_and_process_data
catch the exception, print a diagnostic and return None, and main returns
early: no map is created and no HTML artifact is written. -/
theorem claim_C5 :
    ∀ e : LoadError,
      (fm_load (.error e)).1 = none ∧ (fm_load (.error e)).2 ≠ [] ∧
      (∀ heatAns, fm_main_files (.error e) heatAns = []) ∧
      (fs_load (.error e)).1 = none ∧ (fs_load (.error e)).2 ≠ [] ∧
      fs_main_files (.error e) = [] := by
  intro e
  cases e <;> simp [fm_load, fm_main_files, fs_load, fs_main_files]

/-! ## Claim C8 : external interfaces -/

/-- An external channel a script touches during execution. -/
inductive Channel where
  | httpGet (url : String)
  | fileRead (path : String)
  | stdinRead
  | stdoutWrite
  | fileWrite (path : String)
  | guiDisplay
deriving DecidableEq

/-- URL of the frogID occurrence CSV fetched by both frog scripts. -/
def frogIdUrl : String :=
  "https://raw.githubusercontent.com/rfordatascience/tidytuesday/main/data/2025/2025-09-02/frogID_data.csv"

/-- URL of the frog species-name CSV fetched by both frog scripts. -/
def frogNamesUrl : String :=
  "https://raw.githubusercontent.com/rfordatascience/tidytuesday/main/data/2025/2025-09-02/frog_names.csv"

/-- Every external channel frog_mapper.py uses during execution: the two
CSV GETs of load_and_process_data, printed summaries, the species-map HTML
save (line 177), the `input(...)` call of main (line 183), which reads one
line from standard input, and the conditional heatmap HTML save
(line 203). -/
def frog_mapper_channels : List Channel :=
  [.httpGet frogIdUrl, .httpGet frogNamesUrl, .stdoutWrite,
   .fileWrite "frog_species_map.html", .stdinRead,
   .fileWrite "frog_species_heatmap.html"]

/-- Every external channel frog_species_map.py uses: the two CSV GETs,
printed summaries, and the three map HTML saves (lines 401, 407, 412). -/
def frog_species_map_channels : List Channel :=
  [.httpGet frogIdUrl, .httpGet frogNamesUrl, .stdoutWrite,
   .fileWrite "frog_endemism_map.html", .fileWrite "frog_seasonal_map.html",
   .fileWrite "frog_range_comparison_map.html"]

/-- Every external channel the historic_station.py script itself uses: the
station metadata and monthly weather CSV GETs (lines 12-13); the script
writes no file and prints nothing, rendering being handed to the
reactive-UI runtime. -/
def historic_station_channels : List Channel :=
  [.httpGet "https://raw.githubusercontent.com/rfordatascience/tidytuesday/main/data/2025/2025-10-21/station_meta.csv",
   .httpGet "https://raw.githubusercontent.com/rfordatascience/tidytuesday/main/data/2025/2025-10-21/historic_station_met.csv"]

/-- Every external channel the selected_british_literary_prizes.py script
itself uses: the prizes CSV GET (line 8). -/
def prizes_channels : List Channel :=
  [.httpGet "https://raw.githubusercontent.com/rfordatascience/tidytuesday/main/data/2025/2025-10-28/prizes.csv"]

/-- Every external channel vesuvius.py uses: the fixed-week download of
pydytuesday.get_date (line 9), which also writes the downloaded non-HTML
data file into the working directory, the vesuvius CSV GET (line 12), and
the chart window displayed by plt.show (line 32). -/
def vesuvius_channels : List Channel :=
  [.httpGet "https://raw.githubusercontent.com/rfordatascience/tidytuesday/main/data/2025/2025-05-13/",
   .fileWrite "vesuvius.csv",
   .httpGet "https://raw.githubusercontent.com/rfordatascience/tidytuesday/main/data/2025/2025-05-13/vesuvius.csv",
   .guiDisplay]

/-- Every external channel get_sydney.py uses: a fixed local CSV path and
printed summaries. -/
def get_sydney_channels : List Channel :=
  [.fileRead "/Users/erinhoxie/Library/Mobile Documents/com~apple~CloudDocs/Documents/Data Projects/sydney-water/weather.csv",
   .stdoutWrite]

/-- Does a written path carry the .html extension? -/
def isHtmlPath (p : String) : Bool :=
  decide ((p.data.reverse.take 5).reverse = ".html".data)

/-- The external interfaces the claim allows: an HTTP GET of a fixed CSV
URL or a local filesystem path for input, writable HTML artifact files,
and process standard output for printed summaries. -/
def claimAllowed : Channel → Bool
  | .httpGet _ => true
  | .fileRead _ => true
  | .fileWrite p => isHtmlPath p
  | .stdoutWrite => true
  | .stdinRead => false
  | .guiDisplay => false

/-- Claim C8 as stated is false: frog_mapper.py reads from standard input
(the heatmap y/n prompt of main, line 183), an input channel outside the
allowed interfaces. -/
theorem claim_C8_counterexample :
    Channel.stdinRead ∈ frog_mapper_channels ∧
    claimAllowed Channel.stdinRead = false := by
  constructor
  · simp [frog_mapper_channels]
  · rfl

/-- Claim C8 (amended): every external channel every script uses is an
HTTP GET of a fixed URL or a local filesystem path for input, a writable
HTML artifact file, or process standard output — except that
frog_mapper.py additionally reads one line from standard input (the
heatmap y/n prompt), and vesuvius.py additionally displays a chart window
(plt.show) and writes the downloaded non-HTML data file to disk
(pydytuesday.get_date). -/
theorem claim_C8 :
    (∀ c ∈ frog_species_map_channels, claimAllowed c = true) ∧
    (∀ c ∈ historic_station_channels, claimAllowed c = true) ∧
    (∀ c ∈ prizes_channels, claimAllowed c = true) ∧
    (∀ c ∈ get_sydney_channels, claimAllowed c = true) ∧
    (∀ c ∈ frog_mapper_channels,
      claimAllowed c = true ∨ c = Channel.stdinRead) ∧
    (∀ c ∈ vesuvius_channels,
      claimAllowed c = true ∨ c = Channel.guiDisplay ∨
        c = Channel.fileWrite "vesuvius.csv") := by
  refine ⟨?_, ?_, ?_, ?_, ?_, ?_⟩ <;> intro c hc <;> fin_cases hc <;> decide

theorem claim_C8_witness :
    claimAllowed (Channel.httpGet frogIdUrl) = true ∧
    (claimAllowed (Channel.fileWrite "frog_species_map.html") = true ∨
      Channel.fileWrite "frog_species_map.html" = Channel.stdinRead) ∧
    (claimAllowed Channel.guiDisplay = true ∨
      Channel.guiDisplay = Channel.guiDisplay ∨
      Channel.guiDisplay = Channel.fileWrite "vesuvius.csv") :=
  ⟨claim_C8.1 (Channel.httpGet frogIdUrl) (by decide),
   claim_C8.2.2.2.2.1 (Channel.fileWrite "frog_species_map.html")
     (by decide),
   claim_C8.2.2.2.2.2 Channel.guiDisplay (by decide)⟩
/-! ## selected_british_literary_prizes.py : gender cleaning and filters -/

/-- `.str.lower()`: lowercase every character (Char.toLower covers the
ASCII letters the gender labels use). -/
def pyLower (s : String) : String := String.mk (s.data.map Char.toLower)

/-- `.str.strip()`: drop leading and trailing whitespace. -/
def pyStrip (s : String) : String :=
  String.mk
    (((s.data.dropWhile Char.isWhitespace).reverse.dropWhile
        Char.isWhitespace).reverse)

/-- The gender cleaning of selected_british_literary_prizes.py lines
10-19: lowercase and strip, then replace the six exact values of the
replace dict; every other value stays in lowercased, stripped form. -/
def gender_clean (raw : String) : String :=
  let s := pyStrip (pyLower raw)
  if s = "female" ∨ s = "woman" ∨ s = "f" then "Women"
  else if s = "male" ∨ s = "man" ∨ s = "m" then "Men"
  else s

/-- The downstream `isin(Women, Men)` filter predicate used by
genre_gender_plot and temporal_gender_plot. -/
def isinWomenMen (s : String) : Bool := s == "Women" || s == "Men"

/-- Claim C9: gender_clean replaces exactly female/woman/f by Women and
male/man/m by Men after lowercasing and stripping, leaves every other
value in lowercased stripped form — so inputs already equal to Women or
Men become women/men — and every unreplaced value is excluded by the
downstream isin filter. -/
theorem claim_C9 :
    (∀ raw : String,
      ((pyStrip (pyLower raw) = "female" ∨ pyStrip (pyLower raw) = "woman" ∨
          pyStrip (pyLower raw) = "f") → gender_clean raw = "Women") ∧
      ((pyStrip (pyLower raw) = "male" ∨ pyStrip (pyLower raw) = "man" ∨
          pyStrip (pyLower raw) = "m") → gender_clean raw = "Men") ∧
      (¬(pyStrip (pyLower raw) = "female" ∨ pyStrip (pyLower raw) = "woman" ∨
          pyStrip (pyLower raw) = "f") →
       ¬(pyStrip (pyLower raw) = "male" ∨ pyStrip (pyLower raw) = "man" ∨
          pyStrip (pyLower raw) = "m") →
       gender_clean raw = pyStrip (pyLower raw)) ∧
      (gender_clean raw ≠ "Women" → gender_clean raw ≠ "Men" →
       isinWomenMen (gender_clean raw) = false)) ∧
    gender_clean "Women" = "women" ∧ gender_clean "Men" = "men" ∧
    isinWomenMen "women" = false ∧ isinWomenMen "men" = false := by
  refine ⟨?_, by decide, by decide, by decide, by decide⟩
  intro raw
  refine ⟨?_, ?_, ?_, ?_⟩
  · intro h
    rcases h with h | h | h <;> simp [gender_clean, h]
  · intro h
    rcases h with h | h | h <;> simp [gender_clean, h]
  · intro h1 h2
    simp only [gender_clean]
    rw [if_neg h1, if_neg h2]
  · intro h1 h2
    simp only [isinWomenMen, Bool.or_eq_false_iff, beq_eq_false_iff_ne, ne_eq]
    exact ⟨h1, h2⟩

theorem claim_C9_witness :
    gender_clean " Female" = "Women" ∧
    gender_clean "M" = "Men" ∧
    gender_clean "nonbinary" = pyStrip (pyLower "nonbinary") ∧
    isinWomenMen (gender_clean "nonbinary") = false :=
  ⟨(claim_C9.1 " Female").1 (by decide),
   (claim_C9.1 "M").2.1 (by decide),
   (claim_C9.1 "nonbinary").2.2.1 (by decide) (by decide),
   (claim_C9.1 "nonbinary").2.2.2 (by decide) (by decide)⟩

/-- One row of the prizes table after the gender-cleaning step; only the
columns the Q3 filters touch are kept.  `gender_clean_col` is the derived
gender_clean column. -/
structure PrizeRow where
  gender : String
  gender_clean_col : String
  ethnicity_macro : Option String
  uk_residence : Option String
deriving DecidableEq

/-- The gender_clean column computation applied to the whole table
(selected_british_literary_prizes.py lines 11-19). -/
def addGenderClean (rows : List PrizeRow) : List PrizeRow :=
  rows.map (fun r =>
    ⟨r.gender, gender_clean r.gender, r.ethnicity_macro, r.uk_residence⟩)

/-- `filtered_data` from selected_british_literary_prizes.py lines
180-194: the three sidebar selectors each either leave the table alone
(on All) or keep the matching rows; a NaN column value matches no
selection. -/
def filtered_data (gsel esel rsel : String) (prizes : List PrizeRow) :
    List PrizeRow :=
  let df := prizes
  let df2 := if gsel ≠ "All" then
      df.filter (fun r => r.gender_clean_col = gsel) else df
  let df3 := if esel ≠ "All" then
      df2.filter (fun r => r.ethnicity_macro = some esel) else df2
  let df4 := if rsel ≠ "All" then
      df3.filter (fun r =>
        r.uk_residence = some (if rsel = "Yes" then "Yes" else "No")) else df3
  df4

/-- A conditional filter step never adds rows. -/
lemma ite_filter_sublist {α : Type} (c : Prop) [Decidable c] (l : List α)
    (p : α → Bool) : (if c then l.filter p else l).Sublist l := by
  split
  · exact List.filter_sublist l
  · exact List.Sublist.refl l

/-- Claim C10: filtered_data always returns a subset of the rows of the
prizes table — any combination of the three selectors only removes rows —
and with all three selectors at All it is the identity. -/
theorem claim_C10 :
    ∀ (gsel esel rsel : String) (prizes : List PrizeRow),
      (filtered_data gsel esel rsel prizes).Sublist prizes ∧
      filtered_data "All" "All" "All" prizes = prizes := by
  intro gsel esel rsel prizes
  constructor
  · simp only [filtered_data]
    exact (ite_filter_sublist _ _ _).trans
      ((ite_filter_sublist _ _ _).trans (ite_filter_sublist _ _ _))
  · simp [filtered_data]
